import Mathlib

/-!
Shallow embedding of the Python dashboard (Birdey/Python-Daashboard):
`main.py` (Dashboard, DashModule, layout, key bindings, save_settings) and
`base_module.py` (BaseModule, settings loading via configparser).

Pure data and control flow are translated directly from the source; Tk side
effects (widget creation, logging, file writes, quitting the main loop) are
made explicit as effect values returned alongside the new state.
-/

namespace PyDash

/-! ## Color constants (main.py, module level) -/

def DARK_MODE_BG : String := "#202020"

def DARK_MODE_TEXT : String := "#ffffff"

def LIGHT_MODE_BG : String := "#f0f0f0"

def LIGHT_MODE_TEXT : String := "#000000"

def MODULES_PATH : String := "modules"

/-! ## Layout: `Dashboard.create_frames` (main.py lines 242-279)

`create_frames` builds one `tk.Frame` per module, placed on a grid, or - when
no modules are loaded - packs a single informational `tk.Label` (with default
`pack()` options: no fill, no expand) and returns an empty frame list. -/

/-- One `tk.Frame` created by `create_frames`: grid position, requested pixel
size and background color, exactly the arguments passed in the source. -/
structure CellFrame where
  row : Nat
  col : Nat
  width : Nat
  height : Nat
  bg : String
deriving DecidableEq

/-- The `fill` option of `tk.pack`. -/
inductive PackFill where
  | fillNone
  | fillX
  | fillY
  | fillBoth
deriving DecidableEq

/-- The "No modules loaded" `tk.Label` packed by `create_frames` when the
module list is empty, together with the `pack()` options used (the source
calls `pack()` with no arguments, so fill defaults to none and expand to
false). -/
structure LabelWidget where
  text : String
  bg : String
  fg : String
  packFill : PackFill
  packExpand : Bool
deriving DecidableEq

/-- Result of `create_frames`: the returned frame list, plus the placeholder
label it packs as a side effect in the zero-module branch. -/
structure FramesResult where
  placeholder : Option LabelWidget
  frames : List CellFrame
deriving DecidableEq

/-- `Dashboard.create_frames`, parametrized by the number of loaded modules
(`len(self.modules)`), the window size (`self.width`, `self.height`) and the
current colors. Frame `i` belongs to module `i` (the source iterates
`enumerate(self.modules)`), with `row, col = divmod(i, cols)`. -/
def create_frames (moduleCount W H : Nat) (bg fg : String) : FramesResult :=
  if moduleCount = 0 then
    { placeholder := some
        { text := "No modules loaded. Please check your modules directory."
          bg := bg
          fg := fg
          packFill := PackFill.fillNone
          packExpand := false }
      frames := [] }
  else
    let cols := min moduleCount (max (moduleCount / 2) 1)
    let rows := (moduleCount + cols - 1) / cols
    { placeholder := none
      frames := (List.range moduleCount).map fun i =>
        { row := i / cols
          col := i % cols
          width := W / cols
          height := H / rows
          bg := bg } }

/-- The geometry of a cell, without its color: used to state that the theme
toggle leaves the layout unchanged. -/
def cell_geometry (c : CellFrame) : Nat × Nat × Nat × Nat :=
  (c.row, c.col, c.width, c.height)

/-! ## Python exceptions and module namespaces -/

deriving instance DecidableEq for Except

/-- Exceptions a module render call can raise: `ModuleDataNotAvailable`
(base_module.py lines 10-14, raised by the default `display_module`) or any
other Python exception, identified by its message. -/
inductive PyExn where
  | moduleDataNotAvailable (moduleName : String)
  | otherExn (msg : String)
deriving DecidableEq

/-- One binding of an executed module namespace (`self._sub_module.__dict__`).
Only three shapes matter to `load_module`: the re-exported `BaseModule` class
itself, a strict subclass of `BaseModule` (carrying the behaviour its
`display_module` will have once instantiated), or any other value. -/
inductive NsEntry where
  | baseModuleItself
  | subClassDef (clsId : String) (display : Except PyExn Unit)
  | plainValue
deriving DecidableEq

/-- A module namespace: `__dict__` as an ordered association list (Python
dictionaries preserve insertion order, which is the order the `for` loop in
`load_module` scans). -/
abbrev PyNamespace := List (String × NsEntry)

/-- The filesystem visible to the loader: for each existing file path, the
behaviour of executing its top-level code (either an exception message or the
resulting namespace). A path absent from the list does not exist. -/
structure Filesystem where
  files : List (String × Except String PyNamespace)

def lookupFs (fs : Filesystem) (path : String) : Option (Except String PyNamespace) :=
  (fs.files.find? fun kv => kv.1 == path).map (·.2)

/-- Errors `exec_module` can produce: the file is missing
(`FileNotFoundError`) or its top-level code raised. -/
inductive PyError where
  | fileNotFound (path : String)
  | raised (msg : String)
deriving DecidableEq

/-- `loader.exec_module(self._sub_module)`: reads and executes the file at
`location`. -/
def exec_module (fs : Filesystem) (location : String) : Except PyError PyNamespace :=
  match lookupFs fs location with
  | none => Except.error (PyError.fileNotFound location)
  | some (Except.error msg) => Except.error (PyError.raised msg)
  | some (Except.ok ns) => Except.ok ns

/-! ## `importlib.util.spec_from_file_location` and `DashModule` -/

/-- The part of `importlib.machinery.ModuleSpec` the dashboard uses: the
module name, the file location, and whether a loader was attached. -/
structure PyModuleSpec where
  name : String
  location : String
  hasLoader : Bool
deriving DecidableEq

/-- `location.endswith(tuple(SOURCE_SUFFIXES))` for the `.py` suffix, the
check CPython `spec_from_file_location` uses to pick a loader. -/
def isPySuffix (location : String) : Bool :=
  location.data.reverse.take 3 = ['y', 'p', '.']

/-- `importlib.util.spec_from_file_location(name, location)`. CPython builds
the spec from the `name` and `location` arguments alone: it chooses the loader
by the file suffix and never consults the filesystem, so a spec (with a
`SourceFileLoader`) is returned even when no file exists at `location`; it
returns `None` only when no supported suffix matches. The `fs` argument is
therefore unused, which is exactly the behaviour under scrutiny. -/
def spec_from_file_location (_fs : Filesystem) (name location : String) :
    Option PyModuleSpec :=
  if isPySuffix location then
    some { name := name, location := location, hasLoader := true }
  else
    none

/-- The instance `cls(self.path, MAIN_LOGGER)` created by `load_module` when a
`BaseModule` subclass is found: the class identity, the path it was given and
the behaviour of its `display_module`. -/
structure SubInstance where
  clsId : String
  path : String
  display : Except PyExn Unit
deriving DecidableEq

/-- `self._sub_module` after `module_from_spec`: a fresh, not yet (or not
successfully) executed module object, or an executed one with its namespace. -/
inductive SubModuleObj where
  | fresh
  | executed (ns : PyNamespace)
deriving DecidableEq

/-- Python `str.title()` on ASCII: a cased character is uppercased when the
previous character is not cased, lowercased otherwise. -/
def py_title_go : Bool → List Char → List Char
  | _, [] => []
  | prevAlpha, c :: cs =>
    let c' := if c.isAlpha then (if prevAlpha then c.toLower else c.toUpper) else c
    c' :: py_title_go c.isAlpha cs

def py_title (s : String) : String :=
  String.mk (py_title_go false s.data)

/-- `DashModule.__init__` name computation (main.py line 117):
`path.split("/")[-1].split(".")[0].replace("_", " ").title()`. -/
def dash_module_name (path : String) : String :=
  py_title (((((path.splitOn "/").getLastD "").splitOn ".").headD "").replace "_" " ")

/-- `DashModule` (main.py lines 104-179): instance fields set by `__init__`
plus the class attributes `settings_path` (never reassigned, so always `""`)
that `save_settings` reads. `loader` records whether `self._loader` has been
assigned a real loader. -/
structure DashModule where
  path : String
  name : String
  spec : PyModuleSpec
  frame : Option Nat := none
  loader : Bool := false
  subModule : Option SubModuleObj := none
  subClass : Option SubInstance := none
  settingsPath : String := ""
deriving DecidableEq

/-- `DashModule.__init__(path, spec)`. -/
def dash_module_init (path : String) (spec : PyModuleSpec) : DashModule :=
  { path := path
    name := dash_module_name path
    spec := spec }

/-- `DashModule.is_loaded`: `self._sub_module is not None` (main.py 171-173).
Note this is true even after a failed `exec_module`, because `_sub_module` is
assigned before the `try` block. -/
def is_loaded (m : DashModule) : Bool :=
  m.subModule.isSome

/-- Observable side effects of the loading and rendering methods. -/
inductive Effect where
  | logDebug (msg : String)
  | logInfo (msg : String)
  | logWarning (msg : String)
  | logError (msg : String)
  | execTopLevel (location : String)
deriving DecidableEq

def isSubClassDef : NsEntry → Bool
  | NsEntry.subClassDef _ _ => true
  | _ => false

/-- `DashModule.load_module` (main.py lines 135-169). The steps, exactly as in
the source: the `is_loaded` guard; `self._loader = self._spec.loader` with a
`None` check; `self._sub_module = module_from_spec(...)` (assigned before the
`try`); `exec_module` inside `try`, with any exception logged and swallowed;
then the first namespace entry that is a type, a subclass of `BaseModule` and
not `BaseModule` itself is instantiated into `self._sub_class`. -/
def load_module (fs : Filesystem) (m : DashModule) : DashModule × List Effect :=
  if is_loaded m then
    (m, [Effect.logWarning "Module already loaded."])
  else
    let m1 : DashModule := { m with loader := m.spec.hasLoader }
    if !m1.spec.hasLoader then
      (m1, [Effect.logError ("Could not load module " ++ m1.path)])
    else
      let m2 : DashModule := { m1 with subModule := some SubModuleObj.fresh }
      match exec_module fs m2.spec.location with
      | Except.error _ =>
        (m2, [Effect.execTopLevel m2.spec.location,
              Effect.logError ("Error executing module " ++ m2.path)])
      | Except.ok ns =>
        let m3 : DashModule := { m2 with subModule := some (SubModuleObj.executed ns) }
        match ns.find? fun kv => isSubClassDef kv.2 with
        | some (clsName, NsEntry.subClassDef cid disp) =>
          ({ m3 with subClass := some { clsId := cid, path := m3.path, display := disp } },
           [Effect.execTopLevel m3.spec.location,
            Effect.logInfo ("Found class " ++ clsName ++ " in module " ++ m3.path)])
        | _ =>
          (m3, [Effect.execTopLevel m3.spec.location,
                Effect.logError ("No subclass of BaseModule found in " ++ m3.path)])

/-- `DashModule.run(frame)` (main.py lines 124-133): logs, stores the frame,
returns `-1` when `_sub_class` is unset, otherwise calls
`display_module(frame)` with no exception handling - an exception raised
there is returned as `Except.error`, i.e. it propagates to the caller. -/
def run (m : DashModule) (fr : Nat) : DashModule × List Effect × Except PyExn Int :=
  let m1 : DashModule := { m with frame := some fr }
  match m1.subClass with
  | none =>
    (m1, [Effect.logInfo ("Running module " ++ m1.path),
          Effect.logError "Module is not loaded."], Except.ok (-1))
  | some c =>
    match c.display with
    | Except.ok _ =>
      (m1, [Effect.logInfo ("Running module " ++ m1.path)], Except.ok 0)
    | Except.error e =>
      (m1, [Effect.logInfo ("Running module " ++ m1.path)], Except.error e)

/-- `Dashboard.load_modules` (main.py lines 215-235), the discovery loop: for
every entry of `os.listdir(MODULES_PATH)` it builds
`modules/<folder>/<folder>.py`, calls `spec_from_file_location`, and appends a
`DashModule` to `self.modules`; a `None` spec raises `FileNotFoundError`,
which the `except` clause turns into an error log. -/
def load_modules (fs : Filesystem) : List String → List DashModule × List Effect
  | [] => ([], [])
  | folder :: rest =>
    let modulesFolder := MODULES_PATH ++ "/" ++ folder
    let execPath := modulesFolder ++ "/" ++ folder ++ ".py"
    match spec_from_file_location fs folder execPath, load_modules fs rest with
    | some spec, (ms, fx) =>
      (dash_module_init modulesFolder spec :: ms, fx)
    | none, (ms, fx) =>
      (ms, Effect.logError ("Error loading module " ++ folder) :: fx)

/-- Number of modules in the registry that were successfully loaded, i.e. have
a contract instance in `_sub_class`. -/
def loaded_count (ms : List DashModule) : Nat :=
  ms.countP fun m => m.subClass.isSome

/-! ## Dashboard state, theme toggle and key bindings (main.py 185-324) -/

/-- The mutable `Dashboard` attributes set in `__init__` that the layout and
the event handlers read or write. -/
structure DashState where
  modules : List DashModule
  bg_color : String
  text_color : String
  moduels_amount : Nat
  dark_mode : Bool
  width : Nat
  height : Nat
deriving DecidableEq

/-- The attribute values `Dashboard.__init__` assigns before loading modules. -/
def dashboard_init_state : DashState :=
  { modules := []
    bg_color := "#f0f0f0"
    text_color := "#000000"
    moduels_amount := 0
    dark_mode := false
    width := 800
    height := 600 }

/-- `Dashboard.toggle_dark_mode` (main.py lines 312-324), the pure state
change: flip `dark_mode` and install the corresponding color pair. The method
then calls `configure(bg=...)` and `reload_layout()`; the layout it produces
is `layout_of` of this new state. -/
def toggle_dark_mode (d : DashState) : DashState :=
  let dm := !d.dark_mode
  { d with
    dark_mode := dm
    bg_color := if dm then DARK_MODE_BG else LIGHT_MODE_BG
    text_color := if dm then DARK_MODE_TEXT else LIGHT_MODE_TEXT }

/-- The layout `reload_layout` computes for a state: `create_frames` applied
to the current module count, window size and colors. -/
def layout_of (d : DashState) : FramesResult :=
  create_frames d.modules.length d.width d.height d.bg_color d.text_color

/-- The actions the four `bind` calls in `Dashboard.__init__` (main.py lines
203-206) attach to keys. -/
inductive DashAction where
  | toggleFullscreen
  | toggleDarkMode
  | reloadIfModules
  | quitApp
deriving DecidableEq

/-- The binding table built in `Dashboard.__init__`. -/
def key_bindings : List (String × DashAction) :=
  [("<Control-f>", DashAction.toggleFullscreen),
   ("<Control-d>", DashAction.toggleDarkMode),
   ("<r>", DashAction.reloadIfModules),
   ("<Escape>", DashAction.quitApp)]

def action_for_key (k : String) : Option DashAction :=
  (key_bindings.find? fun b => b.1 == k).map (·.2)

/-- Observable effects of `Dashboard` event handlers. -/
inductive DashEffect where
  | tkQuit
  | fileWrite (path : String)
deriving DecidableEq

/-- The file writes `Dashboard.save_settings` (main.py lines 281-288) would
perform: one write per module, to that module `settings_path`. -/
def save_settings_effects (ms : List DashModule) : List DashEffect :=
  ms.map fun m => DashEffect.fileWrite m.settingsPath

/-- The handler bound to `<Escape>`: `lambda _: self.quit()` (main.py line
206). Its only effect is stopping the Tk main loop; nothing else in the
handler touches the modules or their settings files. -/
def escape_binding (_d : DashState) : List DashEffect :=
  [DashEffect.tkQuit]

/-! ## configparser (fragment used by `BaseModule.load_settings`)

A model of `configparser.ConfigParser.read` with default options: `[section]`
headers, `key=value` / `key: value` option lines with keys lowercased by
`optionxform` and values stripped, full-line comments starting with `#` or
`;`, blank lines skipped, strict duplicate detection, and
`MissingSectionHeaderError` for content before the first header. Continuation
lines, the `DEFAULT` section and `%`-interpolation are not modelled; no input
in this development uses them. -/

/-- The whitespace characters Python `str.strip()` removes (ASCII). -/
def isSpaceChar (c : Char) : Bool :=
  c = ' ' || c = '\t' || c = '\r' || c = '\x0b' || c = '\x0c'

/-- Remove trailing whitespace. -/
def dropTrail (l : List Char) : List Char :=
  (l.reverse.dropWhile isSpaceChar).reverse

/-- Python `str.strip()` on a line. -/
def trimChars (l : List Char) : List Char :=
  dropTrail (l.dropWhile isSpaceChar)

/-- Split file content at newline characters, like iterating the lines of an
open file (each line stripped afterwards by the parser). -/
def split_lines : List Char → List (List Char)
  | [] => [[]]
  | c :: cs =>
    if c = '\n' then
      [] :: split_lines cs
    else
      match split_lines cs with
      | [] => [[c]]
      | l :: ls => (c :: l) :: ls

/-- The configparser errors the modelled fragment can raise; all are
subclasses of `configparser.Error`. -/
inductive ConfigError where
  | missingSectionHeader (line : String)
  | parsingError (line : String)
  | duplicateSection (sec : String)
  | duplicateOption (sec key : String)
deriving DecidableEq

/-- Parsed configuration: sections in file order, each with its options in
file order. -/
abbrev Sections := List (String × List (String × String))

def lookupSec (cfg : Sections) (sec : String) : Option (List (String × String)) :=
  (cfg.find? fun kv => kv.1 == sec).map (·.2)

def hasOpt (cfg : Sections) (sec key : String) : Bool :=
  match lookupSec cfg sec with
  | none => false
  | some opts => opts.any fun kv => kv.1 == key

def addOpt (cfg : Sections) (sec key val : String) : Sections :=
  cfg.map fun kv => if kv.1 == sec then (kv.1, kv.2 ++ [(key, val)]) else kv

/-- `SECTCRE` applied to a stripped line: a leading `[`, a nonempty header up
to the first `]`, which must be present (text after `]` is ignored, as the
regex is only anchored at the start). -/
def section_header (v : List Char) : Option String :=
  match v with
  | [] => none
  | c0 :: rest =>
    if c0 = '[' then
      let hdr := rest.takeWhile fun ch => ch ≠ ']'
      if hdr.length < rest.length ∧ hdr ≠ [] then some (String.mk hdr) else none
    else
      none

/-- `OPTCRE` applied to a stripped line: key up to the first `=` or `:`
(right-stripped, lowercased by `optionxform`), value the rest of the line,
stripped. `none` when there is no delimiter or the key is empty, which
configparser reports as a `ParsingError`. -/
def opt_line (v : List Char) : Option (String × String) :=
  let rawKey := v.takeWhile fun c => c ≠ '=' ∧ c ≠ ':'
  match v.drop rawKey.length with
  | [] => none
  | _ :: rest =>
    let k := dropTrail rawKey
    if k = [] then none
    else some (String.mk (k.map Char.toLower), String.mk (trimChars rest))

/-- Parser state while reading lines: the current section and the sections
accumulated so far. -/
structure ParseState where
  cursect : Option String
  secs : Sections
deriving DecidableEq

/-- Process one line of the file, mirroring one iteration of
`RawConfigParser._read`: strip, skip blanks and comments, try the section
header pattern, otherwise require a current section and parse an option. -/
def step_line (st : ParseState) (ln : List Char) : Except ConfigError ParseState :=
  match trimChars ln with
  | [] => Except.ok st
  | c0 :: vrest =>
    if c0 = '#' ∨ c0 = ';' then
      Except.ok st
    else
      match section_header (c0 :: vrest) with
      | some name =>
        if (lookupSec st.secs name).isSome then
          Except.error (ConfigError.duplicateSection name)
        else
          Except.ok { cursect := some name, secs := st.secs ++ [(name, [])] }
      | none =>
        match st.cursect with
        | none => Except.error (ConfigError.missingSectionHeader (String.mk ln))
        | some sec =>
          match opt_line (c0 :: vrest) with
          | none => Except.error (ConfigError.parsingError (String.mk ln))
          | some (k, v) =>
            if hasOpt st.secs sec k then
              Except.error (ConfigError.duplicateOption sec k)
            else
              Except.ok { st with secs := addOpt st.secs sec k v }

/-- `ConfigParser().read(...)` on the given file content. -/
def parse_config (s : String) : Except ConfigError Sections :=
  ((split_lines s.data).foldlM step_line { cursect := none, secs := [] }).map (·.secs)

/-! ## `BaseModule` (base_module.py) -/

/-- The `BaseModule` attributes `__init__` sets (base_module.py lines 20-31)
that `load_settings` reads or overrides. -/
structure BMState where
  path : String
  name : String
  version : String
  description : String
  author : String
  license : String
  dependencies : List String
  settings : Sections
deriving DecidableEq

/-- `BaseModule.__init__(path, logger)` attribute values, before
`load_settings` and `on_init` run. `name` is the concrete class name. -/
def base_module_init (path clsName : String) : BMState :=
  { path := path
    name := clsName
    version := "0.0"
    description := "Base module"
    author := "Unknown"
    license := "Unspecified"
    dependencies := []
    settings := [] }

/-- What reading `settings.ini` from disk can yield: the file is absent, the
file exists but opening or reading it raises `OSError` (which
`ConfigParser.read` swallows, leaving the parser empty), or its text content. -/
inductive FsRead where
  | missing
  | unreadable
  | content (s : String)
deriving DecidableEq

def cfg_sections (cfg : Sections) : List String :=
  cfg.map (·.1)

/-- `config.get(sec, key, fallback=...)`. -/
def cfg_get (cfg : Sections) (sec key fallback : String) : String :=
  match lookupSec cfg sec with
  | none => fallback
  | some opts =>
    match (opts.find? fun kv => kv.1 == key).map (·.2) with
    | none => fallback
    | some v => v

/-- `BaseModule.load_settings` (base_module.py lines 33-64). Missing file:
warn and return with everything untouched. Readable file: parse; on a
`configparser.Error` the `except` clause sets `self.settings = {}` and leaves
the metadata as it was (the metadata reads come after `config.read` in the
`try` block, so a parse failure precedes them). Unreadable file: `read`
swallows the `OSError`, the parser stays empty, so no `Module` section is
seen and the comprehension over no sections stores `{}`. On success the
`Module` section (when present) overrides `name`, `version`, `description`
with fallbacks, and `settings` becomes the section map. -/
def load_settings (st : BMState) (fr : FsRead) : BMState :=
  match fr with
  | FsRead.missing => st
  | FsRead.unreadable => { st with settings := [] }
  | FsRead.content s =>
    match parse_config s with
    | Except.error _ => { st with settings := [] }
    | Except.ok cfg =>
      let st1 :=
        if "Module" ∈ cfg_sections cfg then
          { st with
            name := cfg_get cfg "Module" "name" st.name
            version := cfg_get cfg "Module" "version" st.version
            description := cfg_get cfg "Module" "description" st.description }
        else st
      { st1 with settings := cfg }

/-! ## `Dashboard.save_settings` file content (main.py lines 281-288) -/

/-- The `(key, value)` pairs `save_settings` serializes for one module: every
entry of the instance `__dict__` (attribute names with their values rendered
by the f-string) except `name`, `path` and `settings_path`. -/
def saved_pairs (attrs : List (String × String)) : List (String × String) :=
  attrs.filter fun kv => ¬ (kv.1 = "name" ∨ kv.1 = "path" ∨ kv.1 = "settings_path")

/-- The file content `save_settings` writes for those attributes: one
`f"{key}={value}\n"` line per retained pair, in dictionary order. -/
def save_module_content (attrs : List (String × String)) : String :=
  (saved_pairs attrs).foldr (fun kv acc => kv.1 ++ "=" ++ kv.2 ++ "\n" ++ acc) ""

/-! ## Concrete instances used as test inputs -/

/-- A filesystem with no files at all. -/
def empty_fs : Filesystem := { files := [] }

/-- The spec discovery builds for a `modules/clock` directory. -/
def clock_spec : PyModuleSpec :=
  { name := "clock", location := "modules/clock/clock.py", hasLoader := true }

/-- `DashModule("modules/clock", clock_spec)` as appended by `load_modules`. -/
def clock_dash_module : DashModule :=
  dash_module_init "modules/clock" clock_spec

/-- A dashboard right after `__init__` with one discovered module. -/
def dash_with_clock : DashState :=
  { dashboard_init_state with modules := [clock_dash_module] }

/-- A namespace produced by executing a well-formed module file: an import, the
re-exported `BaseModule`, and one subclass whose `display_module` raises
`ModuleDataNotAvailable` (the `BaseModule` default, base_module.py 115-118). -/
def clock_ns : PyNamespace :=
  [("tk", NsEntry.plainValue),
   ("BaseModule", NsEntry.baseModuleItself),
   ("ClockModule", NsEntry.subClassDef "ClockModule"
      (Except.error (PyExn.moduleDataNotAvailable "ClockModule")))]

/-- The instance `load_module` creates from `clock_ns`. -/
def clock_instance : SubInstance :=
  { clsId := "ClockModule"
    path := "modules/clock"
    display := Except.error (PyExn.moduleDataNotAvailable "ClockModule") }

/-- The clock module after a successful `load_module`. -/
def loaded_clock : DashModule :=
  { clock_dash_module with
    loader := true
    subModule := some (SubModuleObj.executed clock_ns)
    subClass := some clock_instance }

/-- A filesystem whose one module file raises at top level. -/
def boom_fs : Filesystem :=
  { files := [("modules/boom/boom.py", Except.error "RuntimeError")] }

def boom_spec : PyModuleSpec :=
  { name := "boom", location := "modules/boom/boom.py", hasLoader := true }

def boom_module : DashModule :=
  dash_module_init "modules/boom" boom_spec

/-- A `BaseModule` state with overridden metadata and non-empty settings, used
to observe what a failed settings reload preserves. -/
def old_settings_state : BMState :=
  { base_module_init "modules/clock" "ClockModule" with
    name := "Old"
    version := "9.9"
    description := "Prior"
    settings := [("User", [("theme", "dark")])] }

/-! # Theorems -/

/-! ## Helper lemmas about the character-level parsing functions -/

theorem dropWhile_append_last {p : Char → Bool} {x : Char} (hx : p x = false) :
    ∀ A : List Char, (A ++ [x]).dropWhile p = A.dropWhile p ++ [x]
  | [] => by simp [List.dropWhile, hx]
  | a :: A => by
    by_cases ha : p a
    · simp [List.dropWhile, ha, dropWhile_append_last hx A]
    · simp [List.dropWhile, ha]

theorem dropTrail_cons {c : Char} (hc : isSpaceChar c = false) (l : List Char) :
    dropTrail (c :: l) = c :: dropTrail l := by
  simp [dropTrail, dropWhile_append_last hc]

theorem trimChars_cons {c : Char} (hc : isSpaceChar c = false) (l : List Char) :
    trimChars (c :: l) = c :: dropTrail l := by
  simp [trimChars, List.dropWhile, hc, dropTrail_cons hc]

theorem split_lines_append {A : List Char} (h : '\n' ∉ A) (B : List Char) :
    split_lines (A ++ '\n' :: B) = A :: split_lines B := by
  induction A with
  | nil => simp [split_lines]
  | cons a A ih =>
    have ha : ¬ a = '\n' := fun hh => h (hh ▸ List.mem_cons_self a A)
    have h' : '\n' ∉ A := fun hm => h (List.mem_cons_of_mem _ hm)
    simp [split_lines, ha, ih h']

theorem section_header_ne_bracket {c : Char} (hc : c ≠ '[') (l : List Char) :
    section_header (c :: l) = none := by
  simp [section_header, hc]

theorem step_line_no_cursect {st : ParseState} (hst : st.cursect = none)
    {c : Char} (hc1 : isSpaceChar c = false) (hc2 : c ≠ '#') (hc3 : c ≠ ';')
    (hc4 : c ≠ '[') (l : List Char) :
    step_line st (c :: l) =
      Except.error (ConfigError.missingSectionHeader (String.mk (c :: l))) := by
  simp [step_line, trimChars_cons hc1, hc2, hc3, section_header_ne_bracket hc4, hst]

theorem foldlM_step_error {e : ConfigError} {st : ParseState} {l : List Char}
    (h : step_line st l = Except.error e) (ls : List (List Char)) :
    (l :: ls).foldlM step_line st = Except.error e := by
  simp [List.foldlM_cons, h]
  rfl

theorem isPySuffix_append (s : String) : isPySuffix (s ++ ".py") = true := by
  have h : (s ++ ".py").data = s.data ++ ['.', 'p', 'y'] := by
    have hp : ".py".data = ['.', 'p', 'y'] := rfl
    simp [String.data_append, hp]
  simp [isPySuffix, h, List.reverse_append]

theorem create_frames_geometry_indep (n W H : Nat) (bg1 fg1 bg2 fg2 : String) :
    (create_frames n W H bg1 fg1).frames.map cell_geometry =
      (create_frames n W H bg2 fg2).frames.map cell_geometry := by
  by_cases h : n = 0 <;> simp [create_frames, h, cell_geometry, List.map_map]

/-! ## Claim theorems -/

/-- C5: for every module count N ≥ 1 and area W×H, `create_frames` returns
exactly N cells assigned to modules in registry order row-major, with
`cols = max(1, min(N, N // 2))` (which equals the code formula
`min(N, max(N // 2, 1))` for N ≥ 1), `rows = ceil(N / cols)`, `cols ≤ N`,
`cols * rows ≥ N`, and every cell of size `W // cols` by `H // rows`. -/
theorem c5_layout (n W H : Nat) (bg fg : String) (hn : 1 ≤ n) :
    (create_frames n W H bg fg).frames.length = n ∧
    max 1 (min n (n / 2)) ≤ n ∧
    n ≤ max 1 (min n (n / 2)) *
      ((n + max 1 (min n (n / 2)) - 1) / max 1 (min n (n / 2))) ∧
    ∀ i, i < n → (create_frames n W H bg fg).frames[i]? =
      some { row := i / max 1 (min n (n / 2))
             col := i % max 1 (min n (n / 2))
             width := W / max 1 (min n (n / 2))
             height := H / ((n + max 1 (min n (n / 2)) - 1) / max 1 (min n (n / 2)))
             bg := bg } := by
  have h0 : ¬ n = 0 := by omega
  have hc : min n (max (n / 2) 1) = max 1 (min n (n / 2)) := by omega
  refine ⟨by simp [create_frames, h0], by omega, ?_, ?_⟩
  · generalize hc2 : max 1 (min n (n / 2)) = c
    have h1 : 1 ≤ c := hc2 ▸ Nat.le_max_left 1 (min n (n / 2))
    have hd := Nat.div_add_mod (n + c - 1) c
    have hm : (n + c - 1) % c < c := Nat.mod_lt _ (by omega)
    generalize hq : (n + c - 1) / c = q at hd
    generalize hr : (n + c - 1) % c = r at hd hm
    generalize ht : c * q = t at hd ⊢
    omega
  · intro i hi
    simp [create_frames, h0, List.getElem?_map, List.getElem?_range, hi, hc]

/-- C5 witness: the spec scenario of four modules in an 800×600 window:
2 columns, 2 rows, cells of 400×300. -/
theorem c5_witness :
    (create_frames 4 800 600 "#f0f0f0" "#000000").frames.length = 4 ∧
    max 1 (min 4 (4 / 2)) ≤ 4 ∧
    4 ≤ max 1 (min 4 (4 / 2)) *
      ((4 + max 1 (min 4 (4 / 2)) - 1) / max 1 (min 4 (4 / 2))) ∧
    ∀ i, i < 4 → (create_frames 4 800 600 "#f0f0f0" "#000000").frames[i]? =
      some { row := i / max 1 (min 4 (4 / 2))
             col := i % max 1 (min 4 (4 / 2))
             width := 800 / max 1 (min 4 (4 / 2))
             height := 600 / ((4 + max 1 (min 4 (4 / 2)) - 1) / max 1 (min 4 (4 / 2)))
             bg := "#f0f0f0" } :=
  c5_layout 4 800 600 "#f0f0f0" "#000000" (by decide)

/-- C6 counterexample: with zero modules, `create_frames 0 800 600` does not
return a region covering the whole 800×600 area - it returns no regions at
all (the frame list is empty). -/
theorem c6_counterexample :
    ¬ ∃ cf ∈ (create_frames 0 800 600 LIGHT_MODE_BG LIGHT_MODE_TEXT).frames,
        cf.width = 800 ∧ cf.height = 600 := by
  decide

/-- C6 amended: with zero modules, `create_frames` returns an empty frame
list and, as a side effect, packs a single informational placeholder label
with the current colors using default `pack()` options (no fill, no expand),
so the placeholder is not sized to the available area. -/
theorem c6_amended (W H : Nat) (bg fg : String) :
    create_frames 0 W H bg fg =
      { placeholder := some
          { text := "No modules loaded. Please check your modules directory."
            bg := bg
            fg := fg
            packFill := PackFill.fillNone
            packExpand := false }
        frames := [] } :=
  rfl

/-- C9: toggling dark mode changes only the color pair; module list and
window size are untouched, and the recomputed layout has the same number of
cells with identical row, column, width and height. -/
theorem c9_theme_toggle_geometry (d : DashState) :
    (toggle_dark_mode d).modules = d.modules ∧
    (toggle_dark_mode d).width = d.width ∧
    (toggle_dark_mode d).height = d.height ∧
    (layout_of (toggle_dark_mode d)).frames.length = (layout_of d).frames.length ∧
    (layout_of (toggle_dark_mode d)).frames.map cell_geometry =
      (layout_of d).frames.map cell_geometry ∧
    (layout_of (toggle_dark_mode d)).placeholder.isSome =
      (layout_of d).placeholder.isSome := by
  have hg : (layout_of (toggle_dark_mode d)).frames.map cell_geometry =
      (layout_of d).frames.map cell_geometry :=
    create_frames_geometry_indep d.modules.length d.width d.height _ _ _ _
  refine ⟨rfl, rfl, rfl, ?_, hg, ?_⟩
  · have := congrArg List.length hg
    simpa using this
  · by_cases h : d.modules.length = 0 <;>
      simp [layout_of, toggle_dark_mode, create_frames, h]

/-- C1 counterexample: for a dashboard with one module, the Escape handler
performs none of the settings-file writes that `save_settings` would perform;
its only effect is quitting the Tk main loop. -/
theorem c1_counterexample :
    ¬ ∀ e ∈ save_settings_effects dash_with_clock.modules,
        e ∈ escape_binding dash_with_clock := by
  decide

/-- C1 amended: the Escape binding maps to `quit()` alone: the quit signal
stops the Tk main loop and performs no settings-file write for any module
(`save_settings` exists in the code but is never invoked by any handler). -/
theorem c1_amended (d : DashState) :
    action_for_key "<Escape>" = some DashAction.quitApp ∧
    escape_binding d = [DashEffect.tkQuit] ∧
    ∀ p : String, DashEffect.fileWrite p ∉ escape_binding d := by
  refine ⟨by decide, rfl, ?_⟩
  intro p hp
  simp [escape_binding] at hp

/-- C2 counterexample: a module whose serialized attribute value "None"
contains neither `=` nor a newline. After saving, reloading through the
settings loader yields the empty settings mapping: the `frame=None` pair does
not survive the round trip, because the saved file has no section header and
the configparser-based loader rejects it. -/
theorem c2_counterexample :
    (∀ ch ∈ "None".data, ch ≠ '=' ∧ ch ≠ '\n') ∧
    ("frame", "None") ∈
      saved_pairs [("path", "modules/clock"), ("name", "Clock"), ("frame", "None")] ∧
    (load_settings (base_module_init "modules/clock" "Clock")
        (FsRead.content (save_module_content
          [("path", "modules/clock"), ("name", "Clock"), ("frame", "None")]))).settings
      = [] := by
  decide

/-- C2 amended: saving writes sectionless `key=value` lines, which the
configparser-based loader always rejects with a missing-section-header error;
hence whenever at least one attribute line is written (with an ordinary
identifier-like first key and newline-free text), reloading the saved content
yields the empty settings mapping - the round trip preserves no key at all. -/
theorem c2_amended (st : BMState) (attrs : List (String × String))
    (k v : String) (ps : List (String × String)) (c : Char)
    (hsp : saved_pairs attrs = (k, v) :: ps)
    (hk : k.data.head? = some c)
    (hc1 : isSpaceChar c = false) (hc2 : c ≠ '#') (hc3 : c ≠ ';') (hc4 : c ≠ '[')
    (hkn : '\n' ∉ k.data) (hvn : '\n' ∉ v.data) :
    (∃ ln, parse_config (save_module_content attrs) =
      Except.error (ConfigError.missingSectionHeader ln)) ∧
    (load_settings st (FsRead.content (save_module_content attrs))).settings = [] := by
  obtain ⟨t, hkd⟩ : ∃ t, k.data = c :: t := by
    cases h2 : k.data with
    | nil => simp [h2] at hk
    | cons a t =>
      rw [h2] at hk
      simp at hk
      exact ⟨t, by rw [hk]⟩
  have hcontent : save_module_content attrs =
      k ++ "=" ++ v ++ "\n" ++
        ps.foldr (fun kv acc => kv.1 ++ "=" ++ kv.2 ++ "\n" ++ acc) "" := by
    rw [save_module_content, hsp]
    rfl
  have he : "=".data = ['='] := rfl
  have hnl : "\n".data = ['\n'] := rfl
  have hdata : (save_module_content attrs).data =
      (k.data ++ '=' :: v.data) ++ '\n' ::
        (ps.foldr (fun kv acc => kv.1 ++ "=" ++ kv.2 ++ "\n" ++ acc) "").data := by
    rw [hcontent]
    simp [String.data_append, he, hnl]
  have hnotmem : '\n' ∉ (k.data ++ '=' :: v.data) := by
    intro hmem
    rcases List.mem_append.mp hmem with hm | hm
    · exact hkn hm
    · rcases List.mem_cons.mp hm with hm2 | hm2
      · exact absurd hm2 (by decide)
      · exact hvn hm2
  have hsplit : split_lines (save_module_content attrs).data =
      (k.data ++ '=' :: v.data) ::
        split_lines (ps.foldr (fun kv acc => kv.1 ++ "=" ++ kv.2 ++ "\n" ++ acc) "").data := by
    rw [hdata]
    exact split_lines_append hnotmem _
  have hline : k.data ++ '=' :: v.data = c :: (t ++ '=' :: v.data) := by
    rw [hkd]
    rfl
  have hstep : step_line { cursect := none, secs := [] } (k.data ++ '=' :: v.data) =
      Except.error (ConfigError.missingSectionHeader
        (String.mk (k.data ++ '=' :: v.data))) := by
    rw [hline]
    exact step_line_no_cursect rfl hc1 hc2 hc3 hc4 _
  have hparse : parse_config (save_module_content attrs) =
      Except.error (ConfigError.missingSectionHeader
        (String.mk (k.data ++ '=' :: v.data))) := by
    rw [parse_config, hsplit, foldlM_step_error hstep]
    rfl
  exact ⟨⟨String.mk (k.data ++ '=' :: v.data), hparse⟩, by simp [load_settings, hparse]⟩

/-- C2 witness: the amended statement evaluated on a concrete attribute dict. -/
theorem c2_witness :
    (∃ ln, parse_config (save_module_content
        [("path", "modules/clock"), ("name", "Clock"), ("frame", "None")]) =
      Except.error (ConfigError.missingSectionHeader ln)) ∧
    (load_settings old_settings_state
        (FsRead.content (save_module_content
          [("path", "modules/clock"), ("name", "Clock"), ("frame", "None")]))).settings
      = [] :=
  c2_amended old_settings_state
    [("path", "modules/clock"), ("name", "Clock"), ("frame", "None")]
    "frame" "None" [] 'f'
    (by decide) (by decide) (by decide) (by decide) (by decide) (by decide)
    (by decide) (by decide)

/-- C3 counterexample: a loaded module whose `display_module` raises
`ModuleDataNotAvailable`. `run` does not return a status code: the exception
escapes `run` (there is no try/except around `display_module`), contradicting
"the exception does not propagate out of the render dispatch". -/
theorem c3_counterexample :
    (run loaded_clock 0).2.2 =
      Except.error (PyExn.moduleDataNotAvailable "ClockModule") ∧
    ∀ n : Int, (run loaded_clock 0).2.2 ≠ Except.ok n := by
  refine ⟨rfl, ?_⟩
  intro n h
  rw [(rfl : (run loaded_clock 0).2.2 =
    Except.error (PyExn.moduleDataNotAvailable "ClockModule"))] at h
  cases h

/-- C3 amended: when a loaded module's `display_module` raises, `run`
propagates the exception to its caller unchanged; the only log `run` emitted
is the initial info line - the error is neither caught nor logged inside the
render dispatch. -/
theorem c3_amended (m : DashModule) (c : SubInstance) (fr : Nat) (e : PyExn)
    (h1 : m.subClass = some c) (h2 : c.display = Except.error e) :
    (run m fr).2.2 = Except.error e ∧
    (run m fr).2.1 = [Effect.logInfo ("Running module " ++ m.path)] := by
  simp [run, h1, h2]

/-- C3 witness: the amended statement at the concrete loaded clock module. -/
theorem c3_witness :
    (run loaded_clock 7).2.2 =
      Except.error (PyExn.moduleDataNotAvailable "ClockModule") ∧
    (run loaded_clock 7).2.1 =
      [Effect.logInfo ("Running module " ++ loaded_clock.path)] :=
  c3_amended loaded_clock clock_instance 7
    (PyExn.moduleDataNotAvailable "ClockModule") rfl rfl

/-- C4 counterexample: a modules directory entry `emptymod` whose entry-point
file `modules/emptymod/emptymod.py` does not exist on the (empty) filesystem
is still added to the registry: `spec_from_file_location` builds a spec from
the path suffix without checking existence, so discovery does not exclude the
directory. -/
theorem c4_counterexample :
    lookupFs empty_fs "modules/emptymod/emptymod.py" = none ∧
    ((load_modules empty_fs ["emptymod"]).1).map DashModule.path =
      ["modules/emptymod"] := by
  decide

/-- C4 amended: discovery adds one `DashModule` for every listed entry of the
modules root, regardless of whether the entry-point file exists; a missing
entry point is detected only later, when `load_module` executes the file and
logs an error, so the skip is neither at discovery time nor silent. -/
theorem c4_amended (fs : Filesystem) (listing : List String) :
    ((load_modules fs listing).1).map DashModule.path =
      listing.map (fun folder => MODULES_PATH ++ "/" ++ folder) ∧
    ((load_modules fs listing).1).length = listing.length := by
  induction listing with
  | nil => simp [load_modules]
  | cons f rest ih =>
    have hs : isPySuffix (MODULES_PATH ++ "/" ++ f ++ "/" ++ f ++ ".py") = true :=
      isPySuffix_append _
    simp [load_modules, spec_from_file_location, hs, dash_module_init, ih.1, ih.2]

/-- C7: a module whose top-level code raises during load is handled per
module: no contract instance is created, `run` on it returns -1, the count of
successfully loaded modules in any registry list is unchanged, and a second
`load_module` call is the already-loaded no-op (the module code is not
re-executed), because `_sub_module` was assigned before the failing `try`. -/
theorem c7_load_failure_isolated (fs fs2 : Filesystem) (m : DashModule)
    (msg : String) (fr : Nat) (pre post : List DashModule)
    (h1 : m.subModule = none) (h2 : m.subClass = none)
    (h3 : m.spec.hasLoader = true)
    (h4 : exec_module fs m.spec.location = Except.error (PyError.raised msg)) :
    (load_module fs m).1.subClass = none ∧
    (load_module fs m).2 = [Effect.execTopLevel m.spec.location,
      Effect.logError ("Error executing module " ++ m.path)] ∧
    (run (load_module fs m).1 fr).2.2 = Except.ok (-1) ∧
    loaded_count (pre ++ (load_module fs m).1 :: post) =
      loaded_count (pre ++ m :: post) ∧
    load_module fs2 (load_module fs m).1 =
      ((load_module fs m).1, [Effect.logWarning "Module already loaded."]) := by
  have hl : is_loaded m = false := by simp [is_loaded, h1]
  have heq : load_module fs m =
      ({ m with loader := m.spec.hasLoader, subModule := some SubModuleObj.fresh },
       [Effect.execTopLevel m.spec.location,
        Effect.logError ("Error executing module " ++ m.path)]) := by
    simp [load_module, hl, h3, h4]
  refine ⟨?_, ?_, ?_, ?_, ?_⟩
  · rw [heq]
    exact h2
  · rw [heq]
  · rw [heq]
    simp [run, h2]
  · rw [heq]
    simp [loaded_count, List.countP_append, List.countP_cons, h2]
  · rw [heq]
    simp [load_module, is_loaded]

/-- C7 witness: the failing-load properties at a concrete module whose file
raises `RuntimeError` at top level. -/
theorem c7_witness :
    (load_module boom_fs boom_module).1.subClass = none ∧
    (load_module boom_fs boom_module).2 =
      [Effect.execTopLevel boom_module.spec.location,
       Effect.logError ("Error executing module " ++ boom_module.path)] ∧
    (run (load_module boom_fs boom_module).1 0).2.2 = Except.ok (-1) ∧
    loaded_count ([] ++ (load_module boom_fs boom_module).1 :: []) =
      loaded_count ([] ++ boom_module :: []) ∧
    load_module boom_fs (load_module boom_fs boom_module).1 =
      ((load_module boom_fs boom_module).1,
       [Effect.logWarning "Module already loaded."]) :=
  c7_load_failure_isolated boom_fs boom_fs boom_module "RuntimeError" 0 [] []
    rfl rfl rfl (by decide)

/-- C8: calling `load_module` on a module that is already loaded is a no-op
that emits only the "already loaded" warning: the module state is returned
unchanged and no top-level code execution effect occurs. -/
theorem c8_reload_noop (fs : Filesystem) (m : DashModule) (sm : SubModuleObj)
    (h : m.subModule = some sm) :
    load_module fs m = (m, [Effect.logWarning "Module already loaded."]) ∧
    ∀ loc, Effect.execTopLevel loc ∉ (load_module fs m).2 := by
  have hl : is_loaded m = true := by simp [is_loaded, h]
  refine ⟨by simp [load_module, hl], ?_⟩
  intro loc hmem
  simp [load_module, hl] at hmem

/-- C8 witness: reloading the already-loaded clock module. -/
theorem c8_witness :
    load_module boom_fs loaded_clock =
      (loaded_clock, [Effect.logWarning "Module already loaded."]) ∧
    ∀ loc, Effect.execTopLevel loc ∉ (load_module boom_fs loaded_clock).2 :=
  c8_reload_noop boom_fs loaded_clock (SubModuleObj.executed clock_ns) rfl

/-- C10: when reading the settings file fails - the parse raises a
configparser error, or opening/reading raises `OSError` (swallowed inside
`ConfigParser.read`, leaving the parser empty) - the resulting settings
mapping is exactly empty and the `name`, `version` and `description`
metadata keep their prior values: no partially applied overrides. -/
theorem c10_settings_load_failure_atomic (st : BMState) (fr : FsRead)
    (h : fr = FsRead.unreadable ∨
      ∃ s e, fr = FsRead.content s ∧ parse_config s = Except.error e) :
    (load_settings st fr).settings = [] ∧
    (load_settings st fr).name = st.name ∧
    (load_settings st fr).version = st.version ∧
    (load_settings st fr).description = st.description := by
  rcases h with h | ⟨s, e, rfl, hp⟩
  · subst h
    simp [load_settings]
  · simp [load_settings, hp]

/-- C10 witness: a malformed settings file (no section header) against a
state with overridden metadata and non-empty settings. -/
theorem c10_witness :
    (load_settings old_settings_state (FsRead.content "theme=dark\n")).settings = [] ∧
    (load_settings old_settings_state (FsRead.content "theme=dark\n")).name =
      old_settings_state.name ∧
    (load_settings old_settings_state (FsRead.content "theme=dark\n")).version =
      old_settings_state.version ∧
    (load_settings old_settings_state (FsRead.content "theme=dark\n")).description =
      old_settings_state.description :=
  c10_settings_load_failure_atomic old_settings_state (FsRead.content "theme=dark\n")
    (Or.inr ⟨"theme=dark\n", ConfigError.missingSectionHeader "theme=dark",
      rfl, by decide⟩)

end PyDash
